import Mathlib

/-!
Shallow embedding of the FFmpeg `qbresidual` video filter
(`libavfilter/vf_qbresidual.c`) and proofs about its specified behaviour.

The filter's own code (`init`, `query_formats`, `config_props`,
`filter_frame`, `uninit`) is translated function-by-function.  Helper
facilities that live outside the filter source (libavutil frame helpers,
pixel-format plane counts, the DNN backend operations) are modelled as
explicit parameters or small definitions documented as modelled from the
spec, since only their interface is relevant to the filter.
-/

namespace QBResidual

/-! ## DNN interface data model (`dnn_interface.h` types used by the filter) -/

/-- Element type of a DNN input tensor (`DNNDataType`). -/
inductive DNNDataType
  | DNN_FLOAT
  | DNN_UINT8
  deriving DecidableEq, Repr

/-- `DNNInputData`: the tensor descriptor the filter fills in
(`dt`, `width`, `height`, `channels`). -/
structure DNNInputData where
  dt : DNNDataType
  width : Nat
  height : Nat
  channels : Nat
  deriving DecidableEq, Repr

/-- `DNNReturnType`: status returned by backend operations. -/
inductive DNNReturnType
  | DNN_SUCCESS
  | DNN_ERROR
  deriving DecidableEq, Repr

/-- The full request handed to the backend's `set_input_output`:
the input tensor descriptor, the input tensor name and the list of
output tensor names (the C call passes `&qbresidual->input`, `"x"`,
`&model_output_name` with count 1). -/
structure NegotiationRequest where
  input : DNNInputData
  input_name : String
  output_names : List String
  deriving DecidableEq, Repr

/-! ## Error codes: `AVERROR(e)` is `-e` (errno values ENOMEM=12, EINVAL=22, EIO=5). -/

def AVERROR_ENOMEM : Int := -12
def AVERROR_EINVAL : Int := -22
def AVERROR_EIO : Int := -5

/-! ## Pixel formats -/

/-- A representative set of `AVPixelFormat` values. -/
inductive AVPixelFormat
  | YUV420P
  | YUV422P
  | YUV444P
  | GBRP
  | GRAY8
  | RGB24
  | YUVA420P
  | NV12
  deriving DecidableEq, Repr

/-- Modelled from the spec: the upstream contract exposes a queryable
plane count per pixel format (`av_pix_fmt_count_planes` lives in
libavutil, outside this filter's source).  Counts follow the libavutil
pixel-format descriptors: planar YUV and planar RGB have 3 planes,
alpha-planar YUV has 4, semi-planar NV12 has 2, packed/gray formats 1. -/
def av_pix_fmt_count_planes : AVPixelFormat → Nat
  | .YUV420P => 3
  | .YUV422P => 3
  | .YUV444P => 3
  | .GBRP => 3
  | .GRAY8 => 1
  | .RGB24 => 1
  | .YUVA420P => 4
  | .NV12 => 2

/-- The pixel-format list `query_formats` builds
(`{AV_PIX_FMT_YUV420P, AV_PIX_FMT_NONE}`, the sentinel terminating it):
the set of accepted input formats. -/
def pixel_formats : List AVPixelFormat := [.YUV420P]

/-! ## Frames -/

/-- An `AVFrame` as the filter sees it: an object identity (to speak
about reuse vs. fresh allocation), timestamp/position metadata, geometry,
pixel payload, and the writability (exclusive-ownership) flag. -/
structure AVFrame where
  id : Nat
  pts : Int
  pkt_pos : Int
  width : Nat
  height : Nat
  data : List Int
  writable : Bool
  deriving DecidableEq, Repr

/-- Modelled from the spec: the exclusivity query on a frame
(`av_frame_is_writable`, libavutil). -/
def av_frame_is_writable (f : AVFrame) : Bool := f.writable

/-- Modelled from the spec: `av_frame_copy_props` (libavutil) copies
timestamps and positional metadata from `src` onto `dst`, leaving the
pixel payload of `dst` untouched. -/
def av_frame_copy_props (dst src : AVFrame) : AVFrame :=
  { dst with pts := src.pts, pkt_pos := src.pkt_pos }

/-- Modelled from the spec: `ff_get_video_buffer` allocates a fresh
writable frame of the requested geometry, or fails (out of memory).
The environment parameter `alloc` supplies the fresh frame's identity and
its (unspecified, freshly allocated) pixel payload, or `none` on failure. -/
def ff_get_video_buffer (alloc : Option (Nat × List Int)) (w hgt : Nat) : Option AVFrame :=
  alloc.map fun a =>
    { id := a.1, pts := 0, pkt_pos := -1, width := w, height := hgt,
      data := a.2, writable := true }

/-! ## The per-frame stage: `filter_frame` -/

/-- Observable events of the per-frame path: the diagnostic log line,
and (never emitted by this code) a DNN inference call or a residual
write. -/
inductive FFEvent
  | logFrame (n : Int) (pos : Int) (w : Nat) (hgt : Nat)
  | dnnInfer
  | residualWrite
  deriving DecidableEq, Repr

/-- Result of one `filter_frame` tick: the return code, the frames
forwarded downstream (via `ff_filter_frame`), the identities freed
(via `av_frame_free`), and the emitted events. -/
structure FilterFrameResult where
  ret : Int
  forwarded : List AVFrame
  freed : List Nat
  events : List FFEvent
  deriving DecidableEq, Repr

/-- `filter_frame` (vf_qbresidual.c:179-211).  If the input is writable
it is reused as the output; otherwise a fresh output buffer is obtained,
its props copied from the input, and the input freed.  On buffer
allocation failure the input is freed and `AVERROR(ENOMEM)` returned.
The single log line reports `inlink->frame_count_out`, `frame->pkt_pos`
and the frame dimensions; the output is forwarded downstream. -/
def filter_frame (alloc : Option (Nat × List Int)) (frame_count_out : Int)
    (outW outH : Nat) (inFrame : AVFrame) : FilterFrameResult :=
  if av_frame_is_writable inFrame then
    { ret := 0, forwarded := [inFrame], freed := [],
      events := [.logFrame frame_count_out inFrame.pkt_pos inFrame.width inFrame.height] }
  else
    match ff_get_video_buffer alloc outW outH with
    | none =>
        { ret := AVERROR_ENOMEM, forwarded := [], freed := [inFrame.id], events := [] }
    | some out0 =>
        let out := av_frame_copy_props out0 inFrame
        { ret := 0, forwarded := [out], freed := [inFrame.id],
          events := [.logFrame frame_count_out inFrame.pkt_pos inFrame.width inFrame.height] }

/-! ## Filter context state (`QBResidualContext`) -/

/-- `struct plane_info`: one residual plane buffer.  `residual` is the
allocated buffer, recorded by its size in samples (`none` = the NULL
pointer / unallocated). -/
structure plane_info where
  residual : Option Nat
  width : Nat
  height : Nat
  deriving DecidableEq, Repr

/-- `QBResidualContext`: the fields of the filter's private context that
the claims are about.  `dnn_module` and `model_loaded` record whether the
backend module and the loaded model handle are present (non-NULL). -/
structure QBResidualContext where
  model_filename : Option String
  dnn_module : Bool
  model_loaded : Bool
  input : DNNInputData
  nb_planes : Nat
  planes : List plane_info
  deriving DecidableEq, Repr

/-- The zero-initialised `planes[3]` array of a freshly created filter
context (AVFilter priv data is zeroed on allocation). -/
def initPlanes : List plane_info :=
  [⟨none, 0, 0⟩, ⟨none, 0, 0⟩, ⟨none, 0, 0⟩]

/-- The zero-initialised private context at filter creation, with the
`model` option already applied (the only option the claims depend on).
`DNN_UINT8` stands for the not-yet-assigned zeroed `dt` field. -/
def initialContext (filename : Option String) : QBResidualContext :=
  { model_filename := filename, dnn_module := false, model_loaded := false,
    input := { dt := .DNN_UINT8, width := 0, height := 0, channels := 0 },
    nb_planes := 0, planes := initPlanes }

/-! ## `init` -/

/-- Result of `init`: return code, resulting context, and the list of
paths passed to the backend's `load_model` (to observe whether and on
what a model load was attempted). -/
structure InitResult where
  ret : Int
  ctx : QBResidualContext
  loadCalls : List String
  deriving DecidableEq, Repr

/-- `init` (vf_qbresidual.c:76-104).  Sets `input.dt = DNN_FLOAT`,
resolves the DNN module (`moduleAvailable` models `ff_get_dnn_module`
returning non-NULL), then fails with `AVERROR(EINVAL)` if the `model`
option is NULL, if the module has no `load_model` (`hasLoad`), or if
`load_model(model_filename)` fails (`loadOk`). -/
def init (moduleAvailable : Bool) (hasLoad : Bool) (loadOk : String → Bool)
    (filename : Option String) : InitResult :=
  let ctx0 := initialContext filename
  let ctx1 := { ctx0 with input := { ctx0.input with dt := .DNN_FLOAT } }
  if !moduleAvailable then
    { ret := AVERROR_ENOMEM, ctx := ctx1, loadCalls := [] }
  else
    let ctx2 := { ctx1 with dnn_module := true }
    match filename with
    | none => { ret := AVERROR_EINVAL, ctx := ctx2, loadCalls := [] }
    | some fn =>
      if !hasLoad then
        { ret := AVERROR_EINVAL, ctx := ctx2, loadCalls := [] }
      else if loadOk fn then
        { ret := 0, ctx := { ctx2 with model_loaded := true }, loadCalls := [fn] }
      else
        { ret := AVERROR_EINVAL, ctx := ctx2, loadCalls := [fn] }

/-! ## `config_props` -/

/-- Observable events of first-frame configuration, in the order the
code performs them: the `set_input_output` negotiation call (with the
full request), the plane-count check, and each plane-buffer allocation
attempt. -/
inductive CPEvent
  | negotiate (req : NegotiationRequest)
  | planeCountCheck (n : Nat) (ok : Bool)
  | allocPlane (p : Nat) (size : Nat) (ok : Bool)
  deriving DecidableEq, Repr

/-- Result of `config_props`: return code, updated context, event trace. -/
structure ConfigResult where
  ret : Int
  ctx : QBResidualContext
  events : List CPEvent
  deriving DecidableEq, Repr

/-- The allocation loop of `config_props` (vf_qbresidual.c:147-155) over
the remaining plane indices: each plane gets the link geometry and an
`av_malloc(width*height)` buffer (`allocOk` models allocator success);
on the first failure `AVERROR(ENOMEM)` is returned at once, without
touching the planes already allocated in this call. -/
def allocPlanes (allocOk : Nat → Bool) (w hgt : Nat) :
    List Nat → List plane_info → Int × List plane_info × List CPEvent
  | [], planes => (0, planes, [])
  | p :: ps, planes =>
    let pl : plane_info :=
      { width := w, height := hgt,
        residual := if allocOk p then some (w * hgt) else none }
    let planes' := planes.set p pl
    if allocOk p then
      let r := allocPlanes allocOk w hgt ps planes'
      (r.1, r.2.1, .allocPlane p (w * hgt) true :: r.2.2)
    else
      (AVERROR_ENOMEM, planes', [.allocPlane p (w * hgt) false])

/-- `config_props` (vf_qbresidual.c:121-157).  Fills the tensor
descriptor from the link geometry with channel count 3, calls the
model's `set_input_output` with input name `"x"` and the single output
name `"y"` (`negotiate` models the backend's answer), failing with
`AVERROR(EIO)` if it rejects; then counts the format's planes, failing
with `AVERROR(EIO)` if the count is not 3; then allocates the plane
buffers. -/
def config_props (negotiate : NegotiationRequest → DNNReturnType)
    (allocOk : Nat → Bool) (w hgt : Nat) (format : AVPixelFormat)
    (ctx : QBResidualContext) : ConfigResult :=
  let input' : DNNInputData :=
    { ctx.input with width := w, height := hgt, channels := 3 }
  let ctx1 := { ctx with input := input' }
  let req : NegotiationRequest :=
    { input := input', input_name := "x", output_names := ["y"] }
  if negotiate req ≠ .DNN_SUCCESS then
    { ret := AVERROR_EIO, ctx := ctx1, events := [.negotiate req] }
  else
    let nb := av_pix_fmt_count_planes format
    let ctx2 := { ctx1 with nb_planes := nb }
    if nb ≠ 3 then
      { ret := AVERROR_EIO, ctx := ctx2,
        events := [.negotiate req, .planeCountCheck nb false] }
    else
      let r := allocPlanes allocOk w hgt (List.range nb) ctx2.planes
      { ret := r.1, ctx := { ctx2 with planes := r.2.1 },
        events := .negotiate req :: .planeCountCheck nb true :: r.2.2 }

/-! ## `uninit` -/

/-- Modelled from the spec: the backend's `free_model` (release)
operation — idempotent with respect to a null/already-released handle,
it leaves the handle released (`model = NULL`) in every case. -/
def free_model (_modelLoaded : Bool) : Bool := false

/-- Result of `uninit`: the final context and how many times the
backend's `free_model` was invoked. -/
structure UninitResult where
  ctx : QBResidualContext
  freeModelCalls : Nat
  deriving DecidableEq, Repr

/-- The plane-freeing loop of `uninit` (vf_qbresidual.c:218-221):
`av_freep` nulls the residual pointer of every plane whose index `p`
(the current position) is below `nb`. -/
def freePlanesBelow (nb : Nat) (p : Nat) : List plane_info → List plane_info
  | [] => []
  | pl :: rest =>
      (if p < nb then { pl with residual := none } else pl)
        :: freePlanesBelow nb (p + 1) rest

/-- `uninit` (vf_qbresidual.c:213-227).  Frees (`av_freep`) the residual
buffer of every plane index below `nb_planes`; then, if the DNN module
is present, calls its `free_model` on the model handle once and frees
the module. -/
def uninit (ctx : QBResidualContext) : UninitResult :=
  let planes' := freePlanesBelow ctx.nb_planes 0 ctx.planes
  if ctx.dnn_module then
    { ctx := { ctx with planes := planes',
                        model_loaded := free_model ctx.model_loaded,
                        dnn_module := false },
      freeModelCalls := 1 }
  else
    { ctx := { ctx with planes := planes' }, freeModelCalls := 0 }

/-! ## Concrete fixtures used by witnesses and counterexamples -/

/-- A shared (non-writable) input frame with a distinctive payload. -/
def sharedFrame : AVFrame :=
  { id := 0, pts := 7, pkt_pos := 9, width := 2, height := 2,
    data := [1, 2, 3], writable := false }

/-- An exclusively owned (writable) input frame. -/
def ownedFrame : AVFrame :=
  { id := 2, pts := 4, pkt_pos := 5, width := 2, height := 2,
    data := [6, 6, 6], writable := true }

/-- A backend that accepts any negotiation request. -/
def negAccept : NegotiationRequest → DNNReturnType := fun _ => .DNN_SUCCESS

/-- A backend that rejects any negotiation request. -/
def negReject : NegotiationRequest → DNNReturnType := fun _ => .DNN_ERROR

/-- An allocator for which every allocation succeeds. -/
def allocAll : Nat → Bool := fun _ => true

/-- An allocator that succeeds on the first plane and fails on the second. -/
def allocFailAt1 : Nat → Bool := fun p => p == 0

/-! ## Claims about the per-frame stage -/

/-- C1: every incoming frame processed by `filter_frame` (with the output
buffer allocation, when needed, succeeding and yielding a fresh object)
results in exactly one frame forwarded downstream: the input itself when
it is writable (in-place reuse), otherwise a distinct newly allocated
frame carrying the input's timestamps/position metadata, with the
original input released; no frame is forwarded twice and no frame is
leaked (every frame in play is either forwarded or freed, never both). -/
theorem c1_filter_frame_exactly_one_forwarded
    (alloc : Option (Nat × List Int)) (n : Int) (ow oh : Nat) (f : AVFrame)
    (halloc : f.writable = false → ∃ a, alloc = some a ∧ a.1 ≠ f.id) :
    (filter_frame alloc n ow oh f).ret = 0 ∧
    (filter_frame alloc n ow oh f).forwarded.length = 1 ∧
    (f.writable = true →
      (filter_frame alloc n ow oh f).forwarded = [f] ∧
      (filter_frame alloc n ow oh f).freed = []) ∧
    (f.writable = false →
      ∃ out, (filter_frame alloc n ow oh f).forwarded = [out] ∧
        out.id ≠ f.id ∧ out.pts = f.pts ∧ out.pkt_pos = f.pkt_pos ∧
        (filter_frame alloc n ow oh f).freed = [f.id]) ∧
    (∀ g ∈ (filter_frame alloc n ow oh f).forwarded,
        g.id ∉ (filter_frame alloc n ow oh f).freed) ∧
    (f.id ∈ (filter_frame alloc n ow oh f).forwarded.map AVFrame.id ∨
      f.id ∈ (filter_frame alloc n ow oh f).freed) := by
  cases hw : f.writable with
  | true =>
    simp [filter_frame, av_frame_is_writable, hw]
  | false =>
    obtain ⟨a, ha, hne⟩ := halloc hw
    subst ha
    simp [filter_frame, av_frame_is_writable, hw, ff_get_video_buffer,
          av_frame_copy_props, Option.map, hne]

/-- Witness for C1 at a concrete shared frame and a fresh allocation. -/
theorem c1_witness :
    (filter_frame (some (1, [0, 0, 0])) 0 2 2 sharedFrame).ret = 0 ∧
    (filter_frame (some (1, [0, 0, 0])) 0 2 2 sharedFrame).forwarded.length = 1 ∧
    (sharedFrame.writable = true →
      (filter_frame (some (1, [0, 0, 0])) 0 2 2 sharedFrame).forwarded = [sharedFrame] ∧
      (filter_frame (some (1, [0, 0, 0])) 0 2 2 sharedFrame).freed = []) ∧
    (sharedFrame.writable = false →
      ∃ out, (filter_frame (some (1, [0, 0, 0])) 0 2 2 sharedFrame).forwarded = [out] ∧
        out.id ≠ sharedFrame.id ∧ out.pts = sharedFrame.pts ∧
        out.pkt_pos = sharedFrame.pkt_pos ∧
        (filter_frame (some (1, [0, 0, 0])) 0 2 2 sharedFrame).freed = [sharedFrame.id]) ∧
    (∀ g ∈ (filter_frame (some (1, [0, 0, 0])) 0 2 2 sharedFrame).forwarded,
        g.id ∉ (filter_frame (some (1, [0, 0, 0])) 0 2 2 sharedFrame).freed) ∧
    (sharedFrame.id ∈
        (filter_frame (some (1, [0, 0, 0])) 0 2 2 sharedFrame).forwarded.map AVFrame.id ∨
      sharedFrame.id ∈ (filter_frame (some (1, [0, 0, 0])) 0 2 2 sharedFrame).freed) :=
  c1_filter_frame_exactly_one_forwarded (some (1, [0, 0, 0])) 0 2 2 sharedFrame
    (fun _ => ⟨(1, [0, 0, 0]), rfl, by decide⟩)

/-- C2 counterexample: for a shared (non-writable) input whose payload is
`[1, 2, 3]`, the forwarded frame's payload is the freshly allocated
buffer's contents `[0, 0, 0]`, not a copy of the input's pixels — the
claim that the forwarded payload is identical to the input's in the
allocate-new-output branch is false. -/
theorem c2_counterexample :
    (filter_frame (some (1, [0, 0, 0])) 0 2 2 sharedFrame).forwarded.map AVFrame.data
      = [[0, 0, 0]] ∧
    sharedFrame.data = [1, 2, 3] ∧
    ([[0, 0, 0]] : List (List Int)) ≠ [[1, 2, 3]] := by
  decide

/-- C2 (amended): the per-frame path never invokes the model's `infer`
and never writes residual data, in either branch; in the
exclusive-ownership branch the forwarded payload is the input's own
payload (same frame), while in the allocate-new-output branch only
timestamp/position metadata is copied and the forwarded payload is the
freshly allocated buffer's contents. -/
theorem c2_filter_frame_no_inference
    (alloc : Option (Nat × List Int)) (n : Int) (ow oh : Nat) (f : AVFrame) :
    FFEvent.dnnInfer ∉ (filter_frame alloc n ow oh f).events ∧
    FFEvent.residualWrite ∉ (filter_frame alloc n ow oh f).events ∧
    (f.writable = true →
      (filter_frame alloc n ow oh f).forwarded.map AVFrame.data = [f.data]) ∧
    (∀ a, f.writable = false → alloc = some a →
      (filter_frame alloc n ow oh f).forwarded.map AVFrame.data = [a.2]) := by
  cases hw : f.writable with
  | true => simp [filter_frame, av_frame_is_writable, hw]
  | false =>
    refine ⟨?_, ?_, by simp [hw], ?_⟩ <;>
      cases alloc <;>
        simp [filter_frame, av_frame_is_writable, hw, ff_get_video_buffer,
              av_frame_copy_props, Option.map]

/-- Witness for the amended C2, discharging both branch hypotheses at
concrete frames. -/
theorem c2_witness :
    FFEvent.dnnInfer ∉ (filter_frame (some (1, [0, 0, 0])) 0 2 2 sharedFrame).events ∧
    (filter_frame (some (1, [0, 0, 0])) 0 2 2 sharedFrame).forwarded.map AVFrame.data
      = [[0, 0, 0]] ∧
    (filter_frame none 0 2 2 ownedFrame).forwarded.map AVFrame.data = [ownedFrame.data] :=
  ⟨(c2_filter_frame_no_inference (some (1, [0, 0, 0])) 0 2 2 sharedFrame).1,
   (c2_filter_frame_no_inference (some (1, [0, 0, 0])) 0 2 2 sharedFrame).2.2.2
      (1, [0, 0, 0]) rfl rfl,
   (c2_filter_frame_no_inference none 0 2 2 ownedFrame).2.2.1 rfl⟩

/-! ## Helpers shared by the configuration claims -/

/-- The negotiation request `config_props` builds for a context and a
link geometry: the context's tensor descriptor updated with the link's
width/height and channel count 3, input name `"x"`, output names `["y"]`. -/
def builtRequest (ctx : QBResidualContext) (w hgt : Nat) : NegotiationRequest :=
  { input := { ctx.input with width := w, height := hgt, channels := 3 },
    input_name := "x", output_names := ["y"] }

/-- Every run of `config_props` begins with the negotiation call, on the
request built from the link geometry. -/
theorem config_props_events_head (negotiate : NegotiationRequest → DNNReturnType)
    (allocOk : Nat → Bool) (w hgt : Nat) (fmt : AVPixelFormat)
    (ctx : QBResidualContext) :
    ∃ rest, (config_props negotiate allocOk w hgt fmt ctx).events
      = CPEvent.negotiate (builtRequest ctx w hgt) :: rest := by
  by_cases hneg : negotiate (builtRequest ctx w hgt) = .DNN_SUCCESS <;>
    by_cases hfmt : av_pix_fmt_count_planes fmt = 3 <;>
      simp only [config_props, builtRequest] at hneg ⊢ <;>
      simp [hneg, hfmt]

/-- Whatever branch `init` takes, the tensor descriptor of the resulting
context has element type `DNN_FLOAT` and zeroed geometry. -/
theorem init_ctx_input (moduleAvailable hasLoad : Bool) (loadOk : String → Bool)
    (filename : Option String) :
    (init moduleAvailable hasLoad loadOk filename).ctx.input
      = { dt := .DNN_FLOAT, width := 0, height := 0, channels := 0 } := by
  cases moduleAvailable <;> cases filename <;> cases hasLoad <;>
    simp [init, initialContext]
  split <;> simp

/-- If every plane at an index `j` with `nb ≤ p + j` is already
unallocated, then after the freeing loop every plane is unallocated. -/
theorem freePlanesBelow_residual (nb : Nat) (p : Nat) (l : List plane_info)
    (hbeyond : ∀ j pl, l[j]? = some pl → nb ≤ p + j → pl.residual = none) :
    ∀ pl ∈ freePlanesBelow nb p l, pl.residual = none := by
  induction l generalizing p with
  | nil => intro pl h; simp [freePlanesBelow] at h
  | cons hd tl ih =>
    intro pl hmem
    simp only [freePlanesBelow, List.mem_cons] at hmem
    rcases hmem with h | h
    · by_cases hp : p < nb
      · simp only [if_pos hp] at h; subst h; rfl
      · simp only [if_neg hp] at h; subst h
        exact hbeyond 0 pl (by simp) (by omega)
    · exact ih (p + 1)
        (fun j pl' hj hle => hbeyond (j + 1) pl' (by simpa using hj) (by omega)) pl h

/-! ## Claims about first-frame configuration -/

/-- C3 counterexample: on a 4-plane input with a backend that rejects
the shape, `config_props` performs the negotiation call as its very
first action and returns its error — the event trace holds only the
negotiation, no plane-count validation ever ran, even though the plane
count (4) is invalid.  The claimed order (validate plane count first,
negotiate second) is therefore false. -/
theorem c3_counterexample :
    (config_props negReject allocAll 4 4 .YUVA420P (initialContext (some "m"))).events
      = [CPEvent.negotiate
          { input := { dt := .DNN_UINT8, width := 4, height := 4, channels := 3 },
            input_name := "x", output_names := ["y"] }] ∧
    av_pix_fmt_count_planes .YUVA420P = 4 := by
  decide

/-- C3 (amended): `config_props` builds the tensor descriptor from
width, height and fixed channel count 3 and hands it to model
negotiation first; only after negotiation succeeds does it validate that
the plane count equals 3 (any other count is a fatal error, still raised
before any buffer is allocated), and only after both does it allocate
the plane buffers. -/
theorem c3_config_props_negotiates_before_validation
    (negotiate : NegotiationRequest → DNNReturnType)
    (allocOk : Nat → Bool) (w hgt : Nat) (fmt : AVPixelFormat)
    (ctx : QBResidualContext) :
    (∃ rest, (config_props negotiate allocOk w hgt fmt ctx).events
      = CPEvent.negotiate (builtRequest ctx w hgt) :: rest) ∧
    (negotiate (builtRequest ctx w hgt) ≠ .DNN_SUCCESS →
      (config_props negotiate allocOk w hgt fmt ctx).ret = AVERROR_EIO ∧
      (config_props negotiate allocOk w hgt fmt ctx).ctx.planes = ctx.planes ∧
      (config_props negotiate allocOk w hgt fmt ctx).events
        = [CPEvent.negotiate (builtRequest ctx w hgt)]) ∧
    (av_pix_fmt_count_planes fmt ≠ 3 →
      (config_props negotiate allocOk w hgt fmt ctx).ret = AVERROR_EIO ∧
      (config_props negotiate allocOk w hgt fmt ctx).ctx.planes = ctx.planes ∧
      ∀ p s ok, CPEvent.allocPlane p s ok ∉
        (config_props negotiate allocOk w hgt fmt ctx).events) := by
  refine ⟨config_props_events_head negotiate allocOk w hgt fmt ctx, ?_, ?_⟩
  · intro hneg
    simp only [config_props, builtRequest] at hneg ⊢
    simp [hneg]
  · intro hfmt
    by_cases hneg : negotiate (builtRequest ctx w hgt) = .DNN_SUCCESS <;>
      simp only [config_props, builtRequest] at hneg ⊢ <;>
      simp [hneg, hfmt]

/-- Witness for the amended C3: a rejecting backend on a 4-plane input. -/
theorem c3_witness :
    (∃ rest,
      (config_props negReject allocAll 4 4 .YUVA420P (initialContext (some "m"))).events
        = CPEvent.negotiate (builtRequest (initialContext (some "m")) 4 4) :: rest) ∧
    (config_props negReject allocAll 4 4 .YUVA420P (initialContext (some "m"))).ret
      = AVERROR_EIO ∧
    ∀ p s ok, CPEvent.allocPlane p s ok ∉
      (config_props negReject allocAll 4 4 .YUVA420P (initialContext (some "m"))).events := by
  have h := c3_config_props_negotiates_before_validation negReject allocAll 4 4
    .YUVA420P (initialContext (some "m"))
  exact ⟨h.1, (h.2.1 (by decide)).1, (h.2.2 (by decide)).2.2⟩

/-- C4: on any input whose pixel format does not have exactly 3 planes,
`config_props` fails with a fatal error (`AVERROR(EIO)`) and allocates
no plane buffer: the plane array is returned unchanged, and — starting
from a state with no buffers — every plane stays unallocated. -/
theorem c4_bad_plane_count_fails_without_alloc
    (negotiate : NegotiationRequest → DNNReturnType)
    (allocOk : Nat → Bool) (w hgt : Nat) (fmt : AVPixelFormat)
    (ctx : QBResidualContext)
    (hfmt : av_pix_fmt_count_planes fmt ≠ 3)
    (hplanes : ∀ pl ∈ ctx.planes, pl.residual = none) :
    (config_props negotiate allocOk w hgt fmt ctx).ret = AVERROR_EIO ∧
    (config_props negotiate allocOk w hgt fmt ctx).ctx.planes = ctx.planes ∧
    ∀ pl ∈ (config_props negotiate allocOk w hgt fmt ctx).ctx.planes,
      pl.residual = none := by
  by_cases hneg : negotiate (builtRequest ctx w hgt) = .DNN_SUCCESS <;>
    simp only [config_props, builtRequest] at hneg ⊢ <;>
    simp [hneg, hfmt, hplanes] <;>
    exact hplanes

/-- Witness for C4: a 1-plane format on a pristine context. -/
theorem c4_witness :
    (config_props negAccept allocAll 4 4 .GRAY8 (initialContext (some "m"))).ret
      = AVERROR_EIO ∧
    (config_props negAccept allocAll 4 4 .GRAY8 (initialContext (some "m"))).ctx.planes
      = (initialContext (some "m")).planes ∧
    ∀ pl ∈ (config_props negAccept allocAll 4 4 .GRAY8
        (initialContext (some "m"))).ctx.planes, pl.residual = none :=
  c4_bad_plane_count_fails_without_alloc negAccept allocAll 4 4 .GRAY8
    (initialContext (some "m")) (by decide) (by decide)

/-- C5 counterexample: with the allocation of the second plane failing,
`config_props` returns `AVERROR(ENOMEM)` while the first plane's buffer
— allocated earlier in the same call — is still allocated (`some 16`,
not `none`): earlier allocations are not released before the error is
returned, so the claim is false. -/
theorem c5_counterexample :
    (config_props negAccept allocFailAt1 4 4 .YUV420P (initialContext (some "m"))).ret
      = AVERROR_ENOMEM ∧
    (config_props negAccept allocFailAt1 4 4 .YUV420P
        (initialContext (some "m"))).ctx.planes.map plane_info.residual
      = [some 16, none, none] ∧
    (some 16 : Option Nat) ≠ none := by
  decide

/-- C5 (amended): if the allocation of plane `k` fails (after the
earlier planes allocated successfully), `config_props` returns
`AVERROR(ENOMEM)` immediately, leaving the earlier planes still
allocated — no release happens within the call; the partial state is
instead cleaned up at teardown, where `uninit` frees every plane. -/
theorem c5_alloc_failure_keeps_earlier_planes
    (negotiate : NegotiationRequest → DNNReturnType)
    (allocOk : Nat → Bool) (w hgt : Nat) (fmt : AVPixelFormat)
    (ctx : QBResidualContext) (k : Nat)
    (hneg : negotiate (builtRequest ctx w hgt) = .DNN_SUCCESS)
    (hfmt : av_pix_fmt_count_planes fmt = 3)
    (hplanes : ctx.planes = initPlanes)
    (hk : k < 3)
    (hbefore : ∀ j, j < k → allocOk j = true)
    (hfail : allocOk k = false) :
    (config_props negotiate allocOk w hgt fmt ctx).ret = AVERROR_ENOMEM ∧
    (config_props negotiate allocOk w hgt fmt ctx).ctx.planes.map plane_info.residual
      = (List.range 3).map (fun j => if j < k then some (w * hgt) else none) ∧
    ∀ pl ∈ (uninit (config_props negotiate allocOk w hgt fmt ctx).ctx).ctx.planes,
      pl.residual = none := by
  simp only [config_props, builtRequest] at hneg ⊢
  interval_cases k
  · (simp [hneg, hfmt, hplanes, initPlanes, allocPlanes, List.range_succ, hfail,
          uninit, freePlanesBelow]; split <;> simp)
  · have h0 := hbefore 0 (by omega)
    (simp [hneg, hfmt, hplanes, initPlanes, allocPlanes, List.range_succ, hfail, h0,
          uninit, freePlanesBelow]; split <;> simp)
  · have h0 := hbefore 0 (by omega)
    have h1 := hbefore 1 (by omega)
    (simp [hneg, hfmt, hplanes, initPlanes, allocPlanes, List.range_succ, hfail, h0, h1,
          uninit, freePlanesBelow]; split <;> simp)

/-- Witness for the amended C5: failure at the second plane. -/
theorem c5_witness :
    (config_props negAccept allocFailAt1 4 4 .YUV420P (initialContext (some "m"))).ret
      = AVERROR_ENOMEM ∧
    (config_props negAccept allocFailAt1 4 4 .YUV420P
        (initialContext (some "m"))).ctx.planes.map plane_info.residual
      = (List.range 3).map (fun j => if j < 1 then some (4 * 4) else none) ∧
    ∀ pl ∈ (uninit (config_props negAccept allocFailAt1 4 4 .YUV420P
        (initialContext (some "m"))).ctx).ctx.planes, pl.residual = none :=
  c5_alloc_failure_keeps_earlier_planes negAccept allocFailAt1 4 4 .YUV420P
    (initialContext (some "m")) 1 (by decide) (by decide) rfl (by decide)
    (fun j hj => by
      have hj0 : j = 0 := by omega
      subst hj0; rfl)
    (by decide)

/-- C6: for a valid 3-plane geometry (w, h > 2), a successful
first-frame negotiation with all allocations succeeding returns 0 and
allocates exactly 3 plane buffers, each of size w×h samples and carrying
the stream geometry, and leaves the tensor descriptor with width and
height equal to the negotiated geometry and channel count fixed at 3. -/
theorem c6_negotiation_success_allocates_three_planes
    (negotiate : NegotiationRequest → DNNReturnType)
    (allocOk : Nat → Bool) (w hgt : Nat) (fmt : AVPixelFormat)
    (ctx : QBResidualContext)
    ( _hw : 2 < w) ( _hh : 2 < hgt)
    (hneg : negotiate (builtRequest ctx w hgt) = .DNN_SUCCESS)
    (hfmt : av_pix_fmt_count_planes fmt = 3)
    (halloc : ∀ p, allocOk p = true)
    (hplanes : ctx.planes = initPlanes) :
    (config_props negotiate allocOk w hgt fmt ctx).ret = 0 ∧
    (config_props negotiate allocOk w hgt fmt ctx).ctx.nb_planes = 3 ∧
    (config_props negotiate allocOk w hgt fmt ctx).ctx.planes
      = [⟨some (w * hgt), w, hgt⟩, ⟨some (w * hgt), w, hgt⟩, ⟨some (w * hgt), w, hgt⟩] ∧
    (config_props negotiate allocOk w hgt fmt ctx).ctx.input.width = w ∧
    (config_props negotiate allocOk w hgt fmt ctx).ctx.input.height = hgt ∧
    (config_props negotiate allocOk w hgt fmt ctx).ctx.input.channels = 3 := by
  simp only [config_props, builtRequest] at hneg ⊢
  simp [hneg, hfmt, hplanes, initPlanes, allocPlanes, List.range_succ, halloc]

/-- Witness for C6 at a 4×4 three-plane stream. -/
theorem c6_witness :
    (config_props negAccept allocAll 4 4 .YUV420P (initialContext (some "m"))).ret = 0 ∧
    (config_props negAccept allocAll 4 4 .YUV420P
        (initialContext (some "m"))).ctx.nb_planes = 3 ∧
    (config_props negAccept allocAll 4 4 .YUV420P (initialContext (some "m"))).ctx.planes
      = [⟨some (4 * 4), 4, 4⟩, ⟨some (4 * 4), 4, 4⟩, ⟨some (4 * 4), 4, 4⟩] ∧
    (config_props negAccept allocAll 4 4 .YUV420P
        (initialContext (some "m"))).ctx.input.width = 4 ∧
    (config_props negAccept allocAll 4 4 .YUV420P
        (initialContext (some "m"))).ctx.input.height = 4 ∧
    (config_props negAccept allocAll 4 4 .YUV420P
        (initialContext (some "m"))).ctx.input.channels = 3 :=
  c6_negotiation_success_allocates_three_planes negAccept allocAll 4 4 .YUV420P
    (initialContext (some "m")) (by decide) (by decide) (by decide) (by decide)
    (fun _ => rfl) rfl

/-! ## Claims about construction, format negotiation and teardown -/

/-- C7 counterexample: constructing the stage with the empty model path
`""` and a backend whose load accepts it succeeds (`ret = 0`), and the
backend's `load_model` was invoked on `""` — so an empty model path
neither fails at construction nor is rejected before a model load. -/
theorem c7_counterexample :
    (init true true (fun _ => true) (some "")).ret = 0 ∧
    (init true true (fun _ => true) (some "")).loadCalls = [""] := by
  decide

/-- C7 (amended): a missing (NULL) model path is a fatal configuration
error at `init` (`AVERROR(EINVAL)` once the backend module resolved),
raised before any model load is attempted; an empty model path string is
not rejected by the option check — it is passed to the backend's
`load_model`, and `init` fails only if that load fails. -/
theorem c7_null_model_path_rejected_empty_passed_to_load
    (moduleAvailable hasLoad : Bool) (loadOk : String → Bool) :
    ((init moduleAvailable hasLoad loadOk none).ret < 0 ∧
      (init moduleAvailable hasLoad loadOk none).loadCalls = []) ∧
    (moduleAvailable = true →
      (init moduleAvailable hasLoad loadOk none).ret = AVERROR_EINVAL) ∧
    (moduleAvailable = true → hasLoad = true →
      (init moduleAvailable hasLoad loadOk (some "")).loadCalls = [""] ∧
      ((init moduleAvailable hasLoad loadOk (some "")).ret = 0 ↔ loadOk "" = true)) := by
  cases moduleAvailable <;> cases hasLoad <;>
    simp [init, initialContext, AVERROR_ENOMEM, AVERROR_EINVAL]
  cases h : loadOk "" <;> simp [h, AVERROR_EINVAL]

/-- Witness for the amended C7, with a backend whose load fails. -/
theorem c7_witness :
    ((init true true (fun _ => false) none).ret < 0 ∧
      (init true true (fun _ => false) none).loadCalls = []) ∧
    (init true true (fun _ => false) none).ret = AVERROR_EINVAL ∧
    ((init true true (fun _ => false) (some "")).loadCalls = [""] ∧
      ((init true true (fun _ => false) (some "")).ret = 0 ↔
        (fun _ => false) "" = true)) := by
  have h := c7_null_model_path_rejected_empty_passed_to_load true true (fun _ => false)
  exact ⟨h.1, h.2.1 rfl, h.2.2 rfl rfl⟩

/-- C8 counterexample: `AV_PIX_FMT_YUV444P` has 3 planes but is not in
the accepted format list, so the accepted set is not "exactly the
3-plane formats". -/
theorem c8_counterexample :
    av_pix_fmt_count_planes .YUV444P = 3 ∧
    AVPixelFormat.YUV444P ∉ pixel_formats := by
  decide

/-- C8 (amended): the set of input pixel formats accepted by
`query_formats` is exactly `{AV_PIX_FMT_YUV420P}`; every accepted format
has 3 planes, but not every 3-plane format is accepted. -/
theorem c8_accepted_formats_exactly_yuv420p :
    pixel_formats = [.YUV420P] ∧
    ∀ f ∈ pixel_formats, av_pix_fmt_count_planes f = 3 := by
  decide

/-- Witness for the amended C8 at the one accepted format. -/
theorem c8_witness : av_pix_fmt_count_planes .YUV420P = 3 :=
  c8_accepted_formats_exactly_yuv420p.2 AVPixelFormat.YUV420P (by decide)

/-- A context as it stands after a successful setup: module and model
present, three allocated 4×4 plane buffers. -/
def teardownCtx : QBResidualContext :=
  { model_filename := some "m", dnn_module := true, model_loaded := true,
    input := { dt := .DNN_FLOAT, width := 4, height := 4, channels := 3 },
    nb_planes := 3,
    planes := [⟨some 16, 4, 4⟩, ⟨some 16, 4, 4⟩, ⟨some 16, 4, 4⟩] }

/-- C9: for any context whose planes beyond `nb_planes` are unallocated
(true of every reachable state) and in which a loaded model implies a
present module (the only way `init` can load one), `uninit` leaves zero
allocated plane buffers and a released model handle; the backend's
`free_model` runs exactly once whenever the module is present —
including states where setup failed after the model was loaded — and
never when it is not; the modelled release is idempotent on a
null/already-released handle. -/
theorem c9_uninit_releases_all (ctx : QBResidualContext)
    (hml : ctx.model_loaded = true → ctx.dnn_module = true)
    (hbeyond : ∀ pl ∈ ctx.planes.drop ctx.nb_planes, pl.residual = none) :
    (∀ pl ∈ (uninit ctx).ctx.planes, pl.residual = none) ∧
    (uninit ctx).ctx.model_loaded = false ∧
    (uninit ctx).ctx.dnn_module = false ∧
    (uninit ctx).freeModelCalls = (if ctx.dnn_module then 1 else 0) ∧
    free_model false = false ∧ free_model true = false := by
  have hpl : (uninit ctx).ctx.planes = freePlanesBelow ctx.nb_planes 0 ctx.planes := by
    unfold uninit; split <;> rfl
  refine ⟨?_, ?_, ?_, ?_, rfl, rfl⟩
  · rw [hpl]
    refine freePlanesBelow_residual ctx.nb_planes 0 ctx.planes ?_
    intro j pl hj hle
    refine hbeyond pl ?_
    have hd : (ctx.planes.drop ctx.nb_planes)[j - ctx.nb_planes]? = some pl := by
      rw [List.getElem?_drop]
      rwa [Nat.add_sub_cancel' (by omega : ctx.nb_planes ≤ j)]
    exact List.getElem?_mem hd
  all_goals (unfold uninit; split <;> simp_all [free_model])

/-- Witness for C9 at a fully set-up context. -/
theorem c9_witness :
    (∀ pl ∈ (uninit teardownCtx).ctx.planes, pl.residual = none) ∧
    (uninit teardownCtx).ctx.model_loaded = false ∧
    (uninit teardownCtx).ctx.dnn_module = false ∧
    (uninit teardownCtx).freeModelCalls = (if teardownCtx.dnn_module then 1 else 0) ∧
    free_model false = false ∧ free_model true = false :=
  c9_uninit_releases_all teardownCtx (fun _ => rfl) (by decide)

/-- C10: for every configuration (any module availability, any model
path, any backend behaviour) and every stream geometry, the negotiation
request `config_props` hands to the backend is fixed beyond
width/height: element type `DNN_FLOAT` (set once at `init`), input
tensor name `"x"`, and the single output tensor name `"y"`. -/
theorem c10_negotiation_request_fixed
    (moduleAvailable hasLoad : Bool) (loadOk : String → Bool)
    (filename : Option String) (negotiate : NegotiationRequest → DNNReturnType)
    (allocOk : Nat → Bool) (w hgt : Nat) (fmt : AVPixelFormat) :
    ∃ rest,
      (config_props negotiate allocOk w hgt fmt
          (init moduleAvailable hasLoad loadOk filename).ctx).events
        = CPEvent.negotiate
            { input := { dt := .DNN_FLOAT, width := w, height := hgt, channels := 3 },
              input_name := "x", output_names := ["y"] } :: rest := by
  have h := config_props_events_head negotiate allocOk w hgt fmt
    (init moduleAvailable hasLoad loadOk filename).ctx
  simpa [builtRequest, init_ctx_input] using h

end QBResidual
